import Mathlib

/-!
Verification of the librypt-entropy core (src/lib.rs).

The crate has two components:

* trait `EntropySource`: `fn read_bytes(&self, buffer: &mut [u8]) -> Result<(), E>`.
  A provider receives a caller-owned mutable byte buffer and either succeeds
  (having overwritten bytes in place) or returns a provider-defined error.
  We embed a provider as a function from the initial buffer contents to a pair
  of (result, final buffer contents); slice mutation cannot change the length,
  so a length-preservation proof is part of the structure.  Bytes are modelled
  as `Nat` (no arithmetic is ever performed on them).

* struct `Entropy<const LENGTH: usize> { pub bytes: [u8; LENGTH] }` with
  `try_generate` (fallible construction) and `generate` (unwrapping
  construction).  A fixed-size array `[u8; LENGTH]` is a list of length
  `LENGTH`.  `generate` calls `.unwrap()`, which panics on `Err`; we model a
  panic as `none`, so `generate` returns `Option (Entropy LENGTH)`.
-/

/-- Embedding of the Rust trait `EntropySource` over an error type `ε`
(the associated type `EntropySourceError`).  `read_bytes buffer` returns the
`Result<(), E>` together with the final contents of the caller's buffer,
which the provider mutates in place; a slice write keeps the length, hence
`read_bytes_length`. -/
structure EntropySource (ε : Type) where
  read_bytes : List Nat → Except ε Unit × List Nat
  read_bytes_length : ∀ buffer, (read_bytes buffer).2.length = buffer.length

/-- Embedding of `struct Entropy<const LENGTH: usize> { pub bytes: [u8; LENGTH] }`:
an owned byte sequence whose length is the compile-time constant `LENGTH`. -/
structure Entropy (LENGTH : Nat) where
  bytes : List Nat
  bytes_length : bytes.length = LENGTH

/-- Embedding of `Entropy::try_generate`:

    let mut bytes = [0u8; LENGTH];
    match source.read_bytes(&mut bytes) {
        Ok(_) => Ok(Self { bytes }),
        Err(e) => Err(e),
    }

The zero-initialized buffer is `List.replicate LENGTH 0`; after the fill call
the (mutated) buffer is the second component of `read_bytes`. -/
def Entropy.try_generate {ε : Type} (LENGTH : Nat) (source : EntropySource ε) :
    Except ε (Entropy LENGTH) :=
  let bytes0 := List.replicate LENGTH 0
  let call := source.read_bytes bytes0
  match call.1 with
  | Except.ok _ =>
      Except.ok
        { bytes := call.2
          bytes_length := by
            show (source.read_bytes (List.replicate LENGTH 0)).2.length = LENGTH
            rw [source.read_bytes_length]
            exact List.length_replicate .. }
  | Except.error e => Except.error e

/-- Embedding of `Entropy::generate`, i.e. `Self::try_generate(source).unwrap()`.
`unwrap` panics on `Err`; a panic is modelled as `none`. -/
def Entropy.generate {ε : Type} (LENGTH : Nat) (source : EntropySource ε) :
    Option (Entropy LENGTH) :=
  match Entropy.try_generate LENGTH source with
  | Except.ok v => some v
  | Except.error _ => none

/-- `Entropy::try_generate` instrumented with the list of buffers passed to the
provider's `read_bytes`, in call order.  The function body has a single
`source.read_bytes(&mut bytes)` call site (executed once, before the match on
its result), so the trace records that one buffer. -/
def Entropy.try_generate_traced {ε : Type} (LENGTH : Nat) (source : EntropySource ε) :
    Except ε (Entropy LENGTH) × List (List Nat) :=
  let bytes0 := List.replicate LENGTH 0
  let call := source.read_bytes bytes0
  match call.1 with
  | Except.ok _ =>
      (Except.ok
        { bytes := call.2
          bytes_length := by
            show (source.read_bytes (List.replicate LENGTH 0)).2.length = LENGTH
            rw [source.read_bytes_length]
            exact List.length_replicate .. }, [bytes0])
  | Except.error e => (Except.error e, [bytes0])

/-- `Entropy::generate` instrumented with the buffers passed to `read_bytes`:
it performs no call of its own, only the one inside `try_generate`. -/
def Entropy.generate_traced {ε : Type} (LENGTH : Nat) (source : EntropySource ε) :
    Option (Entropy LENGTH) × List (List Nat) :=
  match Entropy.try_generate_traced LENGTH source with
  | (Except.ok v, tr) => (some v, tr)
  | (Except.error _, tr) => (none, tr)

/-- A provider that always fails with error `e` and leaves the buffer
untouched. -/
def constFailSource (e : Nat) : EntropySource Nat where
  read_bytes := fun buffer => (Except.error e, buffer)
  read_bytes_length := fun _ => rfl

/-- A provider that always fails with error `e` after overwriting the whole
buffer with the byte `9` (a partial-write-then-fail provider). -/
def noisyFailSource (e : Nat) : EntropySource Nat where
  read_bytes := fun buffer => (Except.error e, List.replicate buffer.length 9)
  read_bytes_length := fun buffer => List.length_replicate buffer.length 9

/-- A provider that succeeds and overwrites the buffer with the fixed pattern
`pat` whenever the buffer has the pattern's length (and otherwise leaves it
untouched). -/
def patternSource (pat : List Nat) : EntropySource Nat where
  read_bytes := fun buffer =>
    (Except.ok (), if buffer.length = pat.length then pat else buffer)
  read_bytes_length := by
    intro buffer
    by_cases h : buffer.length = pat.length
    · simp [h]
    · simp [h]

/-- A provider that succeeds and writes nothing: the buffer is returned
exactly as it was supplied. -/
def identitySource : EntropySource Nat where
  read_bytes := fun buffer => (Except.ok (), buffer)
  read_bytes_length := fun _ => rfl

/-- Helper: on a successful fill, `try_generate` returns a container holding
exactly the final buffer contents. -/
theorem try_generate_ok {ε : Type} {LENGTH : Nat} {source : EntropySource ε}
    {u : Unit}
    (h : (source.read_bytes (List.replicate LENGTH 0)).1 = Except.ok u) :
    ∃ v : Entropy LENGTH,
      Entropy.try_generate LENGTH source = Except.ok v ∧
        v.bytes = (source.read_bytes (List.replicate LENGTH 0)).2 := by
  simp only [Entropy.try_generate, h]
  exact ⟨_, rfl, rfl⟩

/-- Helper: on a failing fill, `try_generate` returns the provider's error. -/
theorem try_generate_err {ε : Type} {LENGTH : Nat} {source : EntropySource ε}
    {e : ε}
    (h : (source.read_bytes (List.replicate LENGTH 0)).1 = Except.error e) :
    Entropy.try_generate LENGTH source = Except.error e := by
  simp only [Entropy.try_generate, h]

/-- Helper: the trace of buffers `try_generate` passes to the provider is the
single zero-initialized buffer of size `LENGTH`. -/
theorem try_generate_traced_snd {ε : Type} (LENGTH : Nat) (source : EntropySource ε) :
    (Entropy.try_generate_traced LENGTH source).2 = [List.replicate LENGTH 0] := by
  cases hs : (source.read_bytes (List.replicate LENGTH 0)).1 with
  | ok u => simp [Entropy.try_generate_traced, hs]
  | error e => simp [Entropy.try_generate_traced, hs]

/-- Helper: the traced construction computes the same result as `try_generate`. -/
theorem try_generate_traced_fst {ε : Type} (LENGTH : Nat) (source : EntropySource ε) :
    (Entropy.try_generate_traced LENGTH source).1 = Entropy.try_generate LENGTH source := by
  cases hs : (source.read_bytes (List.replicate LENGTH 0)).1 with
  | ok u => simp [Entropy.try_generate_traced, Entropy.try_generate, hs]
  | error e => simp [Entropy.try_generate_traced, Entropy.try_generate, hs]

/-- Helper: byte `i` of a zero-initialized buffer is `0`. -/
theorem getD_replicate_zero (L i : Nat) : (List.replicate L 0).getD i 0 = 0 := by
  induction L generalizing i with
  | zero => rfl
  | succ n ih =>
    cases i with
    | zero => rfl
    | succ j => exact ih j

/-- Claim C1: for every provider whose `read_bytes` call fails with error `e`,
`Entropy::try_generate` returns exactly that error `e`, unmodified, and no
container value is returned. -/
theorem claim_error_passthrough {ε : Type} (LENGTH : Nat) (source : EntropySource ε)
    (e : ε)
    (h : (source.read_bytes (List.replicate LENGTH 0)).1 = Except.error e) :
    Entropy.try_generate LENGTH source = Except.error e :=
  try_generate_err h

/-- Witness for C1: a provider that always fails with error `7` makes
`try_generate` (at `LENGTH = 2`) return exactly `Except.error 7`. -/
theorem claim_error_passthrough_witness :
    ((constFailSource 7).read_bytes (List.replicate 2 0)).1 = Except.error 7 ∧
      Entropy.try_generate 2 (constFailSource 7) = Except.error 7 :=
  ⟨rfl, claim_error_passthrough 2 (constFailSource 7) 7 rfl⟩

/-- Claim C2: `Entropy::try_generate` never panics: for every provider (which,
in this embedding, always returns a result), it returns either a container or
the provider's error. -/
theorem claim_no_panic {ε : Type} (LENGTH : Nat) (source : EntropySource ε) :
    (∃ v : Entropy LENGTH, Entropy.try_generate LENGTH source = Except.ok v) ∨
      (∃ e : ε, (source.read_bytes (List.replicate LENGTH 0)).1 = Except.error e ∧
        Entropy.try_generate LENGTH source = Except.error e) := by
  cases hs : (source.read_bytes (List.replicate LENGTH 0)).1 with
  | ok u =>
    obtain ⟨v, hv, -⟩ := try_generate_ok hs
    exact Or.inl ⟨v, hv⟩
  | error e => exact Or.inr ⟨e, rfl, try_generate_err hs⟩

/-- Claim C3: for any provider whose `read_bytes` always fails,
`Entropy::generate` panics (modelled as `none`) instead of returning a value. -/
theorem claim_generate_panics {ε : Type} (LENGTH : Nat) (source : EntropySource ε)
    (h : ∀ buffer, ∃ e : ε, (source.read_bytes buffer).1 = Except.error e) :
    Entropy.generate LENGTH source = none := by
  obtain ⟨e, he⟩ := h (List.replicate LENGTH 0)
  simp only [Entropy.generate, try_generate_err he]

/-- Witness for C3: the always-failing provider makes `generate` (at
`LENGTH = 32`) panic. -/
theorem claim_generate_panics_witness :
    (∀ buffer, ∃ e : Nat, ((constFailSource 7).read_bytes buffer).1 = Except.error e) ∧
      Entropy.generate 32 (constFailSource 7) = none :=
  ⟨fun _ => ⟨7, rfl⟩, claim_generate_panics 32 (constFailSource 7) (fun _ => ⟨7, rfl⟩)⟩

/-- Claim C4: if the provider succeeds after leaving the byte pattern `pat` in
the supplied buffer, `try_generate` returns a container whose bytes equal
exactly `pat`; the buffer passed to the provider is the zero-initialized
buffer of size `LENGTH`. -/
theorem claim_pattern_passthrough {ε : Type} (LENGTH : Nat) (source : EntropySource ε)
    (u : Unit) (pat : List Nat)
    (h : source.read_bytes (List.replicate LENGTH 0) = (Except.ok u, pat)) :
    (∃ v : Entropy LENGTH,
      Entropy.try_generate LENGTH source = Except.ok v ∧ v.bytes = pat) ∧
      (Entropy.try_generate_traced LENGTH source).2 = [List.replicate LENGTH 0] := by
  refine ⟨?_, try_generate_traced_snd LENGTH source⟩
  have h1 : (source.read_bytes (List.replicate LENGTH 0)).1 = Except.ok u := by rw [h]
  obtain ⟨v, hv, hb⟩ := try_generate_ok h1
  exact ⟨v, hv, by rw [hb, h]⟩

/-- Witness for C4: a provider writing the fixed 16-byte pattern `1..16` into
the zero-initialized 16-byte buffer yields a container holding exactly that
pattern. -/
theorem claim_pattern_passthrough_witness :
    (patternSource [1, 2, 3, 4, 5, 6, 7, 8, 9, 10, 11, 12, 13, 14, 15, 16]).read_bytes
        (List.replicate 16 0) =
      (Except.ok (), [1, 2, 3, 4, 5, 6, 7, 8, 9, 10, 11, 12, 13, 14, 15, 16]) ∧
      ((∃ v : Entropy 16,
        Entropy.try_generate 16
            (patternSource [1, 2, 3, 4, 5, 6, 7, 8, 9, 10, 11, 12, 13, 14, 15, 16]) =
          Except.ok v ∧ v.bytes = [1, 2, 3, 4, 5, 6, 7, 8, 9, 10, 11, 12, 13, 14, 15, 16]) ∧
        (Entropy.try_generate_traced 16
            (patternSource [1, 2, 3, 4, 5, 6, 7, 8, 9, 10, 11, 12, 13, 14, 15, 16])).2 =
          [List.replicate 16 0]) :=
  ⟨rfl,
    claim_pattern_passthrough 16
      (patternSource [1, 2, 3, 4, 5, 6, 7, 8, 9, 10, 11, 12, 13, 14, 15, 16]) ()
      [1, 2, 3, 4, 5, 6, 7, 8, 9, 10, 11, 12, 13, 14, 15, 16] rfl⟩

/-- Claim C5: a successful construction, via either path, yields a container
whose byte sequence has exactly length `LENGTH` (so for `LENGTH = 0` an empty
sequence). -/
theorem claim_length_exact {ε : Type} (LENGTH : Nat) (source : EntropySource ε)
    (v : Entropy LENGTH)
    (h : Entropy.try_generate LENGTH source = Except.ok v ∨
      Entropy.generate LENGTH source = some v) :
    v.bytes.length = LENGTH := by
  cases h <;> exact v.bytes_length

/-- Witness for C5: at `LENGTH = 0`, a trivially succeeding provider yields a
container with the empty byte sequence and no error. -/
theorem claim_length_exact_witness :
    (Entropy.try_generate 0 identitySource = Except.ok ⟨[], rfl⟩ ∨
      Entropy.generate 0 identitySource = some ⟨[], rfl⟩) ∧
      (⟨[], rfl⟩ : Entropy 0).bytes.length = 0 :=
  ⟨Or.inl rfl, claim_length_exact 0 identitySource ⟨[], rfl⟩ (Or.inl rfl)⟩

/-- Claim C6: whenever the fallible path succeeds with container `v`, the
convenience path returns the same container `v` — identical byte content,
given identical provider behavior. -/
theorem claim_generate_agrees {ε : Type} (LENGTH : Nat) (source : EntropySource ε)
    (v : Entropy LENGTH)
    (h : Entropy.try_generate LENGTH source = Except.ok v) :
    Entropy.generate LENGTH source = some v ∧
      ∃ w : Entropy LENGTH, Entropy.generate LENGTH source = some w ∧ w.bytes = v.bytes := by
  have hg : Entropy.generate LENGTH source = some v := by
    simp only [Entropy.generate, h]
  exact ⟨hg, v, hg, rfl⟩

/-- Witness for C6: at `LENGTH = 1` with the succeed-and-write-nothing
provider, both paths return the container holding `[0]`. -/
theorem claim_generate_agrees_witness :
    Entropy.try_generate 1 identitySource = Except.ok ⟨[0], rfl⟩ ∧
      Entropy.generate 1 identitySource = some ⟨[0], rfl⟩ :=
  ⟨rfl, (claim_generate_agrees 1 identitySource ⟨[0], rfl⟩ rfl).1⟩

/-- Claim C8: two providers that fail with equal errors are indistinguishable
through `try_generate`, whatever bytes each wrote into the discarded buffer
before failing: the results are equal. -/
theorem claim_failure_indistinguishable {ε : Type} (LENGTH : Nat)
    (s1 s2 : EntropySource ε) (e : ε)
    (h1 : (s1.read_bytes (List.replicate LENGTH 0)).1 = Except.error e)
    (h2 : (s2.read_bytes (List.replicate LENGTH 0)).1 = Except.error e) :
    Entropy.try_generate LENGTH s1 = Entropy.try_generate LENGTH s2 := by
  rw [try_generate_err h1, try_generate_err h2]

/-- Witness for C8: a provider that fails leaving the buffer untouched and a
provider that fails after overwriting the whole buffer with `9`s write
different buffer contents, fail with the same error `7`, and give equal
`try_generate` results at `LENGTH = 4`. -/
theorem claim_failure_indistinguishable_witness :
    ((constFailSource 7).read_bytes (List.replicate 4 0)).1 = Except.error 7 ∧
      ((noisyFailSource 7).read_bytes (List.replicate 4 0)).1 = Except.error 7 ∧
      ((constFailSource 7).read_bytes (List.replicate 4 0)).2 ≠
        ((noisyFailSource 7).read_bytes (List.replicate 4 0)).2 ∧
      Entropy.try_generate 4 (constFailSource 7) =
        Entropy.try_generate 4 (noisyFailSource 7) :=
  ⟨rfl, rfl, by decide,
    claim_failure_indistinguishable 4 (constFailSource 7) (noisyFailSource 7) 7 rfl rfl⟩

/-- Claim C9: each construction performs exactly one `read_bytes` call, with
the zero-initialized buffer whose length equals `LENGTH`; the call trace of
either path is the one-element list `[List.replicate LENGTH 0]`, and tracing
does not change the computed result. -/
theorem claim_single_call {ε : Type} (LENGTH : Nat) (source : EntropySource ε) :
    (Entropy.try_generate_traced LENGTH source).1 = Entropy.try_generate LENGTH source ∧
      (Entropy.try_generate_traced LENGTH source).2 = [List.replicate LENGTH 0] ∧
      (Entropy.generate_traced LENGTH source).1 = Entropy.generate LENGTH source ∧
      (Entropy.generate_traced LENGTH source).2 = [List.replicate LENGTH 0] ∧
      (List.replicate LENGTH 0).length = LENGTH := by
  refine ⟨try_generate_traced_fst LENGTH source, try_generate_traced_snd LENGTH source,
    ?_, ?_, List.length_replicate ..⟩ <;>
  · cases hs : (source.read_bytes (List.replicate LENGTH 0)).1 with
    | ok u =>
      simp [Entropy.generate_traced, Entropy.generate, Entropy.try_generate_traced,
        Entropy.try_generate, hs]
    | error e =>
      simp [Entropy.generate_traced, Entropy.generate, Entropy.try_generate_traced,
        Entropy.try_generate, hs]

/-- Claim C10: because `try_generate` zero-initializes the buffer, a byte the
provider leaves unchanged is zero in the resulting container; in particular, a
provider that writes nothing and succeeds yields the all-zero container. -/
theorem claim_unwritten_zero {ε : Type} (LENGTH : Nat) (source : EntropySource ε)
    (u : Unit) (out : List Nat)
    (h : source.read_bytes (List.replicate LENGTH 0) = (Except.ok u, out)) :
    (∃ v : Entropy LENGTH,
      Entropy.try_generate LENGTH source = Except.ok v ∧ v.bytes = out) ∧
      (∀ i : Nat, out.getD i 0 = (List.replicate LENGTH 0).getD i 0 →
        out.getD i 0 = 0) ∧
      (out = List.replicate LENGTH 0 →
        ∃ v : Entropy LENGTH,
          Entropy.try_generate LENGTH source = Except.ok v ∧
            v.bytes = List.replicate LENGTH 0) := by
  have h1 : (source.read_bytes (List.replicate LENGTH 0)).1 = Except.ok u := by rw [h]
  obtain ⟨v, hv, hb⟩ := try_generate_ok h1
  have hout : v.bytes = out := by rw [hb, h]
  refine ⟨⟨v, hv, hout⟩, ?_, ?_⟩
  · intro i hi
    rw [hi, getD_replicate_zero]
  · intro he
    exact ⟨v, hv, by rw [hout, he]⟩

/-- Witness for C10: the succeed-and-write-nothing provider at `LENGTH = 3`
yields the all-zero container `[0, 0, 0]`. -/
theorem claim_unwritten_zero_witness :
    identitySource.read_bytes (List.replicate 3 0) = (Except.ok (), List.replicate 3 0) ∧
      (∃ v : Entropy 3,
        Entropy.try_generate 3 identitySource = Except.ok v ∧
          v.bytes = List.replicate 3 0) :=
  ⟨rfl, (claim_unwritten_zero 3 identitySource () (List.replicate 3 0) rfl).2.2 rfl⟩
